import Mathlib

/-!
Verification of the Mobility_Gab ride-brokering core.

Shallow embedding of the relevant parts of the repository:
* `subscriptions/models.py` — `Trip` (mark_in_progress, mark_completed, archive,
  is_archived_for), `RideRequest` (accept), `Subscription` (set_overdue, suspend),
* `courses/views.py` — `confirm_trip_completion`, `_finalize_trip_completion`,
  `start_trip`, `archive_trip`,
* `subscriptions/tasks.py` — `handle_overdue_subscriptions`,
* `core/utils.py` — `get_estimated_arrival_time`.

Timestamps are modelled as natural numbers, dates as integers (day numbers),
user ids as naturals.  Django model `save` calls become functional record
updates; the notification log is an explicit list in the state.
-/

namespace MobilityGab

/-- Statuses of `Trip.STATUS_CHOICES` in `subscriptions/models.py`. -/
inductive TripStatus where
  | scheduled
  | in_progress
  | completed
  | cancelled
  | archived
deriving DecidableEq, Repr

/-- Statuses of `RideRequestStatus` in `subscriptions/models.py`. -/
inductive ReqStatus where
  | pending
  | accepted
  | declined
  | cancelled
  | completed
deriving DecidableEq, Repr

/-- The fields of `subscriptions.models.Trip` that the lifecycle operations touch. -/
structure Trip where
  id : Nat
  chauffeur : Nat
  parent : Nat
  status : TripStatus
  startedAt : Option Nat
  completedAt : Option Nat
  chauffeurConfirmedAt : Option Nat
  parentConfirmedAt : Option Nat
  chauffeurArchived : Bool
  parentArchived : Bool
deriving DecidableEq, Repr

/-- Embeds `Trip.mark_in_progress` (`subscriptions/models.py`): set `started_at` when unset,
clear both confirmation timestamps and both archive flags, status to `in_progress`. -/
def Trip.mark_in_progress (t : Trip) (now : Nat) : Trip :=
  { t with
    startedAt := match t.startedAt with
      | none => some now
      | some x => some x
    chauffeurConfirmedAt := none
    parentConfirmedAt := none
    chauffeurArchived := false
    parentArchived := false
    status := .in_progress }

/-- Embeds `Trip.mark_completed` (`subscriptions/models.py`): status to `completed`,
`completed_at = now`. -/
def Trip.mark_completed (t : Trip) (now : Nat) : Trip :=
  { t with status := .completed, completedAt := some now }

/-- Embeds `Trip.archive` (`subscriptions/models.py`).  With no user: global archive,
allowed only from `completed`.  With a user: flip only that party's archive
flag (first the chauffeur branch, then the parent branch), returning `true`
for a party even when the flag was already set; `false` for a non-party. -/
def Trip.archive (t : Trip) (user : Option Nat) : Bool × Trip :=
  match user with
  | none =>
    if t.status = .completed then (true, { t with status := .archived })
    else (false, t)
  | some u =>
    if u = t.chauffeur then
      (true, if t.chauffeurArchived then t else { t with chauffeurArchived := true })
    else if u = t.parent then
      (true, if t.parentArchived then t else { t with parentArchived := true })
    else (false, t)

/-- Embeds `Trip.is_archived_for` (`subscriptions/models.py`). -/
def Trip.is_archived_for (t : Trip) (u : Nat) : Bool :=
  if u = t.chauffeur then t.chauffeurArchived
  else if u = t.parent then t.parentArchived
  else false

/-- Embeds `Trip.chauffeur_has_confirmed`. -/
def Trip.chauffeur_has_confirmed (t : Trip) : Bool :=
  t.chauffeurConfirmedAt.isSome

/-- Embeds `Trip.parent_has_confirmed`. -/
def Trip.parent_has_confirmed (t : Trip) : Bool :=
  t.parentConfirmedAt.isSome

/-- Error kinds surfaced by `confirm_trip_completion` (`courses/views.py`):
403 for a non-party, 400 when the trip is not in progress, 400 when the
actor already confirmed ("Vous avez déjà confirmé la fin"). -/
inductive ConfirmErr where
  | notParty
  | notInProgress
  | alreadyConfirmed
deriving DecidableEq, Repr

/-- Embeds `_finalize_trip_completion` (`courses/views.py`): when both parties have
confirmed and the trip is not yet completed, `mark_completed`; returns whether
the trip was just completed. -/
def finalize_trip_completion (t : Trip) (now : Nat) : Trip × Bool :=
  if t.chauffeur_has_confirmed ∧ t.parent_has_confirmed ∧ t.status ≠ .completed then
    (t.mark_completed now, true)
  else (t, false)

/-- Embeds `confirm_trip_completion` (`courses/views.py`): party check, status check,
then set the acting party's confirmation timestamp (error when already set),
then `_finalize_trip_completion`.  The chauffeur branch is checked first,
mirroring `actor_role = "chauffeur" if request.user == trip.chauffeur else "parent"`. -/
def confirm_trip_completion (t : Trip) (actor : Nat) (now : Nat) :
    Except ConfirmErr (Trip × Bool) :=
  if actor ≠ t.chauffeur ∧ actor ≠ t.parent then .error .notParty
  else if t.status ≠ .in_progress then .error .notInProgress
  else if actor = t.chauffeur then
    if t.chauffeur_has_confirmed then .error .alreadyConfirmed
    else
      let t1 := { t with chauffeurConfirmedAt := some now }
      .ok (finalize_trip_completion t1 now)
  else
    if t.parent_has_confirmed then .error .alreadyConfirmed
    else
      let t1 := { t with parentConfirmedAt := some now }
      .ok (finalize_trip_completion t1 now)

/-- The fields of `accounts.models.ChauffeurProfile` that the ride flow touches. -/
structure Profile where
  owner : Nat
  isAvailable : Bool
deriving DecidableEq, Repr

/-- The fields of `subscriptions.models.RideRequest` that `accept` touches. -/
structure RideReq where
  parent : Nat
  chauffeur : Option Nat
  status : ReqStatus
  respondedAt : Option Nat
  trip : Option Nat
deriving DecidableEq, Repr

/-- A row of `subscriptions.models.Checkpoint` (only the fields the accept
flow would write). -/
structure Checkpoint where
  trip : Nat
  ctype : String
deriving DecidableEq, Repr

/-- Backing store for one ride request: the request row, the trip table, the
chauffeur profiles and the checkpoint table. -/
structure SysState where
  req : RideReq
  trips : List Trip
  profiles : List Profile
  checkpoints : List Checkpoint
  nextTripId : Nat
deriving DecidableEq, Repr

/-- Error taxonomy for `accept`: `conflict` is the spec's `ConflictError`
(never produced by the source), `noChauffeur` is the `ValueError` raised when
no chauffeur is assigned. -/
inductive AcceptErr where
  | conflict
  | noChauffeur
deriving DecidableEq, Repr

/-- Embeds `RideRequest.accept` (`subscriptions/models.py`).  Early return of the
linked trip when the status is not pending; otherwise bind the chauffeur,
create a `Trip` in `in_progress` with `started_at = now`, set
status/trip/responded_at on the request, flip the chauffeur profile's
availability to `false`, and run `mark_in_progress` on the fresh trip.
No checkpoint row is written on this path. -/
def RideReq.acceptSys (st : SysState) (ch : Option Nat) (now : Nat) :
    Except AcceptErr (SysState × Option Nat) :=
  if st.req.status ≠ .pending then .ok (st, st.req.trip)
  else
    let req1 := match ch with
      | some c => { st.req with chauffeur := some c }
      | none => st.req
    match req1.chauffeur with
    | none => .error .noChauffeur
    | some c =>
      let tid := st.nextTripId
      let trip0 : Trip :=
        { id := tid, chauffeur := c, parent := req1.parent, status := .in_progress,
          startedAt := some now, completedAt := none,
          chauffeurConfirmedAt := none, parentConfirmedAt := none,
          chauffeurArchived := false, parentArchived := false }
      let req2 := { req1 with status := .accepted, trip := some tid, respondedAt := some now }
      .ok ({ req := req2,
             trips := st.trips ++ [trip0.mark_in_progress now],
             profiles := st.profiles.map fun p =>
               if p.owner = c then { p with isAvailable := false } else p,
             checkpoints := st.checkpoints,
             nextTripId := tid + 1 }, some tid)

/-- Embeds `confirm_trip_completion` lifted to the backing store (`courses/views.py`
operates on the trip row only; chauffeur profiles are never touched on the
completion path). -/
def confirmSys (st : SysState) (tid : Nat) (actor : Nat) (now : Nat) : SysState :=
  { st with trips := st.trips.map fun t =>
      if t.id = tid then
        match confirm_trip_completion t actor now with
        | .ok (t', _) => t'
        | .error _ => t
      else t }

/-- Statuses of `SubscriptionStatus` in `subscriptions/models.py`. -/
inductive SubStatus where
  | active
  | overdue
  | suspended
  | cancelled
deriving DecidableEq, Repr

/-- The fields of `subscriptions.models.Subscription` the sweep touches.
`nextDue` is the `next_due_date` as a day number. -/
structure Subscription where
  id : Nat
  parent : Nat
  status : SubStatus
  nextDue : Int
deriving DecidableEq, Repr

/-- The fields of `accounts.models.User` touched by `User.suspend`. -/
structure Account where
  id : Nat
  isSuspended : Bool
  suspendedReason : String
deriving DecidableEq, Repr

/-- A row of `core.models.NotificationLog` as created by the sweep. -/
structure Notif where
  user : Nat
  kind : String
deriving DecidableEq, Repr

/-- Backing store for the billing sweep. -/
structure SweepState where
  subs : List Subscription
  accounts : List Account
  log : List Notif
deriving DecidableEq, Repr

/-- Selection predicate of the first queryset of `handle_overdue_subscriptions`
(`subscriptions/tasks.py`): `next_due_date < today` and status `active`. -/
def overdueSel (today : Int) (s : Subscription) : Bool :=
  decide (s.nextDue < today) && decide (s.status = .active)

/-- Selection predicate of the second queryset: status `overdue` and
`next_due_date < today - 5` (the 5-day grace period). -/
def suspendSel (grace : Int) (s : Subscription) : Bool :=
  decide (s.status = .overdue) && decide (s.nextDue < grace)

/-- Embeds `Subscription.set_overdue` (`subscriptions/models.py`). -/
def Subscription.set_overdue (s : Subscription) : Subscription :=
  { s with status := .overdue }

/-- Embeds `Subscription.suspend`'s effect on the subscription row. -/
def Subscription.setSuspended (s : Subscription) : Subscription :=
  { s with status := .suspended }

/-- Embeds `User.suspend` (`accounts/models.py`) applied to the parent of a suspended
subscription, guarded by `if self.parent.is_suspended is False` in
`Subscription.suspend`. -/
def suspendParent (accounts : List Account) (pid : Nat) (reason : String) : List Account :=
  accounts.map fun a =>
    if a.id = pid ∧ a.isSuspended = false then
      { a with isSuspended := true, suspendedReason := reason }
    else a

/-- First half of the sweep: mark every selected subscription `overdue` and
log one `subscription_overdue` notification per selected subscription. -/
def sweepStep1 (today : Int) (st : SweepState) : SweepState :=
  { st with
    subs := st.subs.map fun s => if overdueSel today s then s.set_overdue else s,
    log := st.log ++ (st.subs.filter (overdueSel today)).map
      fun s => { user := s.parent, kind := "subscription_overdue" } }

/-- Second half of the sweep: mark every selected subscription `suspended`,
suspend its parent account, and log one `subscription_suspended` notification
per selected subscription. -/
def sweepStep2 (grace : Int) (st : SweepState) : SweepState :=
  { subs := st.subs.map fun s => if suspendSel grace s then s.setSuspended else s,
    accounts := (st.subs.filter (suspendSel grace)).foldl
      (fun accs s => suspendParent accs s.parent "Retard de paiement > 5 jours") st.accounts,
    log := st.log ++ (st.subs.filter (suspendSel grace)).map
      fun s => { user := s.parent, kind := "subscription_suspended" } }

/-- Return record of `handle_overdue_subscriptions`. -/
structure SweepResult where
  overdue : Nat
  suspended : Nat
  overdueIds : List Nat
  suspendedIds : List Nat
deriving DecidableEq, Repr

/-- Embeds `handle_overdue_subscriptions` (`subscriptions/tasks.py`).  The overdue ids
are computed on the incoming state; the suspension queryset is evaluated
lazily, i.e. on the state left by the first (possibly skipped) loop. -/
def handle_overdue_subscriptions (st : SweepState) (today : Int) (dryRun : Bool) :
    SweepState × SweepResult :=
  let overdueIds := (st.subs.filter (overdueSel today)).map (·.id)
  let st1 := if dryRun then st else sweepStep1 today st
  let grace := today - 5
  let suspendedIds := (st1.subs.filter (suspendSel grace)).map (·.id)
  let st2 := if dryRun then st1 else sweepStep2 grace st1
  (st2, { overdue := overdueIds.length, suspended := suspendedIds.length,
          overdueIds := overdueIds, suspendedIds := suspendedIds })

/-- Truncation toward zero, the behaviour of Python's `int()` applied to the
rational idealisation of the float computed in `get_estimated_arrival_time`. -/
def pyTrunc (q : ℚ) : ℤ :=
  if q < 0 then Int.ceil q else Int.floor q

/-- Embeds `get_estimated_arrival_time` (`core/utils.py`) as a function of the
distance it computes: `time_minutes = int(distance / speed * 60)`, then
`max(2, time_minutes)`. -/
def get_estimated_arrival_time (distance_km : ℚ) (average_speed_kmh : ℚ) : ℤ :=
  max 2 (pyTrunc (distance_km / average_speed_kmh * 60))

/-- Modelled from the spec (for comparison with the source): the spec's
formula `ceil(distanceKm/avgSpeedKmh * 60)` floored at a minimum of 2. -/
def etaMinutesSpec (distance_km : ℚ) (average_speed_kmh : ℚ) : ℤ :=
  max 2 (Int.ceil (distance_km / average_speed_kmh * 60))

/-- Http-level errors of the `courses/views.py` endpoints. -/
inductive HttpErr where
  | forbidden
  | badRequest
deriving DecidableEq, Repr

/-- Embeds `archive_trip` (`courses/views.py`): 403 for a non-party, otherwise call
`Trip.archive(request.user)`; 400 when it returns `False`.  The endpoint
performs no status check. -/
def archive_trip (t : Trip) (user : Nat) : Except HttpErr Trip :=
  if user ≠ t.chauffeur ∧ user ≠ t.parent then .error .forbidden
  else
    let r := t.archive (some user)
    if r.1 then .ok r.2 else .error .badRequest

/-- Lifecycle operations on a trip: `start_trip` (guarded by
status in scheduled or in_progress, per `courses/views.py`),
`confirm_trip_completion`, and `Trip.archive` for an optional user. -/
inductive TripOp where
  | startOp (now : Nat)
  | confirmOp (actor : Nat) (now : Nat)
  | archiveOp (user : Option Nat)
deriving DecidableEq, Repr

/-- Apply one lifecycle operation; failing operations leave the trip row
untouched (the views return an error response without saving). -/
def TripOp.apply (t : Trip) : TripOp → Trip
  | .startOp now =>
    if t.status = .scheduled ∨ t.status = .in_progress then t.mark_in_progress now else t
  | .confirmOp a now =>
    match confirm_trip_completion t a now with
    | .ok (t', _) => t'
    | .error _ => t
  | .archiveOp u => (t.archive u).2

/-- Run a sequence of lifecycle operations. -/
def runOps (t : Trip) (ops : List TripOp) : Trip :=
  ops.foldl TripOp.apply t

/-- The amended `completed_at` invariant: `completed_at` is set iff the trip
is `completed` or was globally archived after completion. -/
def completedAtInv (t : Trip) : Prop :=
  t.completedAt.isSome = true ↔ (t.status = .completed ∨ t.status = .archived)

/-! ### Concrete sample states used by witnesses and counterexamples -/

/-- A pending ride request from parent 1 with one available chauffeur 5. -/
def stPen : SysState :=
  { req := { parent := 1, chauffeur := none, status := .pending,
             respondedAt := none, trip := none },
    trips := [], profiles := [{ owner := 5, isAvailable := true }],
    checkpoints := [], nextTripId := 0 }

/-- The state after chauffeur 5 accepts `stPen` at time 3. -/
def stPen1 : SysState :=
  { req := { parent := 1, chauffeur := some 5, status := .accepted,
             respondedAt := some 3, trip := some 0 },
    trips := [{ id := 0, chauffeur := 5, parent := 1, status := .in_progress,
                startedAt := some 3, completedAt := none,
                chauffeurConfirmedAt := none, parentConfirmedAt := none,
                chauffeurArchived := false, parentArchived := false }],
    profiles := [{ owner := 5, isAvailable := false }],
    checkpoints := [], nextTripId := 1 }

/-- An already-accepted ride request (trip 0 linked). -/
def stAcc : SysState :=
  { req := { parent := 1, chauffeur := some 5, status := .accepted,
             respondedAt := some 2, trip := some 0 },
    trips := [], profiles := [{ owner := 5, isAvailable := false }],
    checkpoints := [], nextTripId := 1 }

/-- A fresh scheduled trip between chauffeur 5 and parent 1. -/
def tripSched : Trip :=
  { id := 0, chauffeur := 5, parent := 1, status := .scheduled,
    startedAt := none, completedAt := none,
    chauffeurConfirmedAt := none, parentConfirmedAt := none,
    chauffeurArchived := false, parentArchived := false }

/-- An in-progress trip with no confirmations yet. -/
def tripRun : Trip :=
  { tripSched with status := .in_progress, startedAt := some 1 }

/-- An in-progress trip where the parent has already confirmed. -/
def tripHalf : Trip :=
  { tripRun with parentConfirmedAt := some 2 }

/-- One active subscription six days past due, in an unsuspended account. -/
def stCex : SweepState :=
  { subs := [{ id := 1, parent := 1, status := .active, nextDue := -6 }],
    accounts := [{ id := 1, isSuspended := false, suspendedReason := "" }],
    log := [] }

/-- A freshly overdue active subscription and an overdue one past grace. -/
def stW : SweepState :=
  { subs := [{ id := 1, parent := 1, status := .active, nextDue := -3 },
             { id := 2, parent := 2, status := .overdue, nextDue := -7 }],
    accounts := [{ id := 1, isSuspended := false, suspendedReason := "" },
                 { id := 2, isSuspended := false, suspendedReason := "" }],
    log := [] }

instance {ε α : Type} [DecidableEq ε] [DecidableEq α] : DecidableEq (Except ε α) := fun a b => by
  cases a <;> cases b
  case error.error e f =>
    exact if h : e = f then isTrue (by simp [h]) else isFalse (by simp [h])
  case ok.ok x y =>
    exact if h : x = y then isTrue (by simp [h]) else isFalse (by simp [h])
  case error.ok => exact isFalse (by simp)
  case ok.error => exact isFalse (by simp)

/-! ### Theorems -/

/-- Embeds `accept` on a non-pending request returns the linked trip unchanged. -/
lemma acceptSys_not_pending (st : SysState) (ch : Option Nat) (now : Nat)
    (h : st.req.status ≠ .pending) :
    RideReq.acceptSys st ch now = .ok (st, st.req.trip) := by
  unfold RideReq.acceptSys
  rw [if_pos h]

/-- Full characterisation of a successful `accept` with an explicit chauffeur. -/
lemma acceptSys_pending_some (st : SysState) (c now : Nat)
    (hp : st.req.status = .pending) :
    RideReq.acceptSys st (some c) now =
      .ok ({ req := { st.req with chauffeur := some c, status := .accepted,
                                  trip := some st.nextTripId, respondedAt := some now },
             trips := st.trips ++
               [{ id := st.nextTripId, chauffeur := c, parent := st.req.parent,
                  status := .in_progress, startedAt := some now, completedAt := none,
                  chauffeurConfirmedAt := none, parentConfirmedAt := none,
                  chauffeurArchived := false, parentArchived := false }],
             profiles := st.profiles.map fun p =>
               if p.owner = c then { p with isAvailable := false } else p,
             checkpoints := st.checkpoints,
             nextTripId := st.nextTripId + 1 }, some st.nextTripId) := by
  unfold RideReq.acceptSys
  rw [if_neg (by simp [hp])]
  rfl

/-- A successful `accept` from `pending` leaves the request `accepted`. -/
lemma acceptSys_pending_status (st : SysState) (ch : Option Nat) (now : Nat)
    (st' : SysState) (tid : Option Nat) (hp : st.req.status = .pending)
    (hok : RideReq.acceptSys st ch now = .ok (st', tid)) :
    st'.req.status = .accepted := by
  unfold RideReq.acceptSys at hok
  rw [if_neg (by simp [hp])] at hok
  cases ch with
  | none =>
    cases hc : st.req.chauffeur with
    | none => simp [hc] at hok
    | some c =>
      simp only [hc] at hok
      obtain ⟨h1, -⟩ := by simpa using hok
      rw [← h1]
  | some c =>
    obtain ⟨h1, -⟩ := by simpa using hok
    rw [← h1]

/-- Claim C1 (amended): `accept` on a request whose status is not pending is a
no-op that returns the existing trip link without raising any error (the
source raises no `ConflictError`); for a pending request at most one
acceptance can succeed — a successful `accept` leaves the request `accepted`,
so any further `accept` call returns the same state and the same trip,
binding no second chauffeur and creating no second trip. -/
theorem accept_non_pending_noop_single_winner (st : SysState) (ch ch' : Option Nat)
    (now now' : Nat) :
    (st.req.status ≠ .pending → RideReq.acceptSys st ch now = .ok (st, st.req.trip)) ∧
    (∀ st' tid, st.req.status = .pending →
      RideReq.acceptSys st ch now = .ok (st', tid) →
      st'.req.status = .accepted ∧
      RideReq.acceptSys st' ch' now' = .ok (st', st'.req.trip)) := by
  refine ⟨fun h => acceptSys_not_pending st ch now h, ?_⟩
  intro st' tid hp hok
  have hacc := acceptSys_pending_status st ch now st' tid hp hok
  exact ⟨hacc, acceptSys_not_pending st' ch' now' (by simp [hacc])⟩

/-- Witness for C1: chauffeur 5 wins the pending request `stPen`; the replay
of `accept` on the resulting state is a no-op returning the same trip. -/
theorem accept_non_pending_noop_single_winner_wit :
    (RideReq.acceptSys stAcc (some 7) 9 = .ok (stAcc, stAcc.req.trip)) ∧
    (stPen1.req.status = .accepted ∧
      RideReq.acceptSys stPen1 none 4 = .ok (stPen1, stPen1.req.trip)) :=
  ⟨(accept_non_pending_noop_single_winner stAcc (some 7) none 9 4).1 (by decide),
   (accept_non_pending_noop_single_winner stPen (some 5) none 3 4).2 stPen1 (some 0)
     (by decide) (by decide)⟩

/-- Counterexample for C1 as stated: on the already-accepted request `stAcc`,
`accept` does not fail with `ConflictError`; it silently returns the linked
trip. -/
theorem accept_conflict_cex :
    RideReq.acceptSys stAcc (some 7) 9 = .ok (stAcc, some 0) ∧
    RideReq.acceptSys stAcc (some 7) 9 ≠ .error .conflict := by
  constructor
  · decide
  · decide

/-- Claim C2 (amended): a successful `accept` of a pending request sets the
status to `accepted`, binds the chauffeur, appends one new `Trip` in
`in_progress` with `started_at = now` and cleared confirmation/archive
fields, and flips the chauffeur profile's availability to `false`; it
records no checkpoint — the checkpoint table is unchanged (the spec's
`en_route` checkpoint is not written on this code path). -/
theorem accept_effects (st : SysState) (c now : Nat) (hp : st.req.status = .pending)
    (hprof : ({ owner := c, isAvailable := true } : Profile) ∈ st.profiles) :
    ∃ st' tr, RideReq.acceptSys st (some c) now = .ok (st', some tr.id) ∧
      st'.req.status = .accepted ∧ st'.req.chauffeur = some c ∧
      st'.req.trip = some tr.id ∧ st'.req.respondedAt = some now ∧
      st'.trips = st.trips ++ [tr] ∧
      tr.status = .in_progress ∧ tr.startedAt = some now ∧
      tr.chauffeur = c ∧ tr.parent = st.req.parent ∧
      tr.chauffeurConfirmedAt = none ∧ tr.parentConfirmedAt = none ∧
      tr.chauffeurArchived = false ∧ tr.parentArchived = false ∧
      ({ owner := c, isAvailable := false } : Profile) ∈ st'.profiles ∧
      st'.checkpoints = st.checkpoints := by
  refine ⟨_,
    { id := st.nextTripId, chauffeur := c, parent := st.req.parent,
      status := .in_progress, startedAt := some now, completedAt := none,
      chauffeurConfirmedAt := none, parentConfirmedAt := none,
      chauffeurArchived := false, parentArchived := false },
    acceptSys_pending_some st c now hp, rfl, rfl, rfl, rfl, rfl, rfl, rfl,
    rfl, rfl, rfl, rfl, rfl, rfl, ?_, rfl⟩
  exact List.mem_map.mpr ⟨{ owner := c, isAvailable := true }, hprof, by simp⟩

/-- Witness for C2: chauffeur 5 accepts `stPen` at time 3. -/
theorem accept_effects_wit :
    ∃ st' tr, RideReq.acceptSys stPen (some 5) 3 = .ok (st', some tr.id) ∧
      st'.req.status = .accepted ∧ st'.req.chauffeur = some 5 ∧
      st'.req.trip = some tr.id ∧ st'.req.respondedAt = some 3 ∧
      st'.trips = stPen.trips ++ [tr] ∧
      tr.status = .in_progress ∧ tr.startedAt = some 3 ∧
      tr.chauffeur = 5 ∧ tr.parent = stPen.req.parent ∧
      tr.chauffeurConfirmedAt = none ∧ tr.parentConfirmedAt = none ∧
      tr.chauffeurArchived = false ∧ tr.parentArchived = false ∧
      ({ owner := 5, isAvailable := false } : Profile) ∈ st'.profiles ∧
      st'.checkpoints = stPen.checkpoints :=
  accept_effects stPen 5 3 (by decide) (by decide)

/-- Counterexample for C2 as stated: the successful acceptance of `stPen`
writes no checkpoint row at all, so no first `en_route` checkpoint is
recorded. -/
theorem accept_checkpoint_cex :
    RideReq.acceptSys stPen (some 5) 3 = .ok (stPen1, some 0) ∧
    stPen1.checkpoints = [] := by
  decide

/-- Claim C3 (code evaluated at the failing input): the dual-confirmation
completion path never touches chauffeur profiles, so closing a trip spawned
by a ride request leaves the chauffeur's availability at `false` instead of
releasing it.  Concretely: after chauffeur 5 accepts `stPen` and both
parties confirm completion, trip 0 is `completed` but profile 5 still has
`isAvailable = false`.  (The availability-release statements sit after
`return 0` in `RideRequest.get_eligible_chauffeurs_count` and are
unreachable.) -/
theorem trip_close_keeps_availability :
    (∀ st tid a now, (confirmSys st tid a now).profiles = st.profiles) ∧
    RideReq.acceptSys stPen (some 5) 3 = .ok (stPen1, some 0) ∧
    (confirmSys (confirmSys stPen1 0 5 7) 0 1 8).trips =
      [{ id := 0, chauffeur := 5, parent := 1, status := .completed,
         startedAt := some 3, completedAt := some 8,
         chauffeurConfirmedAt := some 7, parentConfirmedAt := some 8,
         chauffeurArchived := false, parentArchived := false }] ∧
    (confirmSys (confirmSys stPen1 0 5 7) 0 1 8).profiles =
      [{ owner := 5, isAvailable := false }] := by
  exact ⟨fun st tid a now => rfl, by decide, by decide, by decide⟩

/-- Claim C7: per-party archival is idempotent — a second `archive` by the
same party returns `true` again and changes nothing, and throughout both
calls the other party's archive flag and the trip's global status are
untouched. -/
theorem archive_party_idempotent (t : Trip) (A B : Nat)
    (hne : t.chauffeur ≠ t.parent)
    (hAB : (A = t.chauffeur ∧ B = t.parent) ∨ (A = t.parent ∧ B = t.chauffeur)) :
    (t.archive (some A)).1 = true ∧
    ((t.archive (some A)).2.archive (some A)).1 = true ∧
    (t.archive (some A)).2.is_archived_for A = true ∧
    ((t.archive (some A)).2.archive (some A)).2 = (t.archive (some A)).2 ∧
    (t.archive (some A)).2.is_archived_for B = t.is_archived_for B ∧
    (t.archive (some A)).2.status = t.status := by
  rcases hAB with ⟨hA, hB⟩ | ⟨hA, hB⟩ <;> subst hA <;> subst hB
  · by_cases hc : t.chauffeurArchived <;>
      simp [Trip.archive, Trip.is_archived_for, hne, Ne.symm hne, hc]
  · by_cases hp : t.parentArchived <;>
      simp [Trip.archive, Trip.is_archived_for, hne, Ne.symm hne, hp]

/-- Witness for C7: the parent (user 1) archives the in-progress trip
`tripRun` twice. -/
theorem archive_party_idempotent_wit :
    (tripRun.archive (some 1)).1 = true ∧
    ((tripRun.archive (some 1)).2.archive (some 1)).1 = true ∧
    (tripRun.archive (some 1)).2.is_archived_for 1 = true ∧
    ((tripRun.archive (some 1)).2.archive (some 1)).2 = (tripRun.archive (some 1)).2 ∧
    (tripRun.archive (some 1)).2.is_archived_for 5 = tripRun.is_archived_for 5 ∧
    (tripRun.archive (some 1)).2.status = tripRun.status :=
  archive_party_idempotent tripRun 1 5 (by decide) (Or.inr ⟨rfl, rfl⟩)

/-- Claim C10: `Trip.archive` with a party succeeds and sets that party's
flag with no precondition on the trip's status (the `archive_trip` endpoint
adds only the party check), while a non-party gets `(False, unchanged)` and
a 403 from the endpoint. -/
theorem archive_no_status_precondition (t : Trip) (u : Nat)
    (hne : t.chauffeur ≠ t.parent) :
    (u = t.chauffeur →
      (t.archive (some u)).1 = true ∧ (t.archive (some u)).2.chauffeurArchived = true ∧
      archive_trip t u = .ok (t.archive (some u)).2) ∧
    (u = t.parent →
      (t.archive (some u)).1 = true ∧ (t.archive (some u)).2.parentArchived = true ∧
      archive_trip t u = .ok (t.archive (some u)).2) ∧
    (u ≠ t.chauffeur ∧ u ≠ t.parent →
      t.archive (some u) = (false, t) ∧ archive_trip t u = .error .forbidden) := by
  refine ⟨?_, ?_, ?_⟩
  · rintro rfl
    by_cases hc : t.chauffeurArchived <;> simp [Trip.archive, archive_trip, hc]
  · rintro rfl
    by_cases hp : t.parentArchived <;>
      simp [Trip.archive, archive_trip, hne, Ne.symm hne, hp]
  · rintro ⟨h1, h2⟩
    simp [Trip.archive, archive_trip, h1, h2]

/-- Witness for C10: on the still-`scheduled` trip `tripSched`, the chauffeur
(user 5), the parent (user 1) and a stranger (user 9). -/
theorem archive_no_status_precondition_wit :
    ((5 : Nat) = tripSched.chauffeur →
      (tripSched.archive (some 5)).1 = true ∧
      (tripSched.archive (some 5)).2.chauffeurArchived = true ∧
      archive_trip tripSched 5 = .ok (tripSched.archive (some 5)).2) ∧
    ((5 : Nat) = tripSched.parent →
      (tripSched.archive (some 5)).1 = true ∧
      (tripSched.archive (some 5)).2.parentArchived = true ∧
      archive_trip tripSched 5 = .ok (tripSched.archive (some 5)).2) ∧
    ((5 : Nat) ≠ tripSched.chauffeur ∧ (5 : Nat) ≠ tripSched.parent →
      tripSched.archive (some 5) = (false, tripSched) ∧
      archive_trip tripSched 5 = .error .forbidden) :=
  archive_no_status_precondition tripSched 5 (by decide)

/-- Claim C5 (amended): on an in-progress trip, a party's first
`confirm_trip_completion` succeeds and stamps that party's confirmation
time; the trip is completed (with `completed_at` set and the
"just completed" flag) iff both distinct parties have confirmed; a second
call by the same actor fails — with `alreadyConfirmed` while the trip is
still in progress, and with the not-in-progress status error once the first
call finalized the trip. -/
theorem confirm_dual_completion (t : Trip) (actor now now' : Nat)
    (hip : t.status = .in_progress) (hne : t.chauffeur ≠ t.parent)
    (hpar : actor = t.chauffeur ∨ actor = t.parent)
    (hfc : actor = t.chauffeur → t.chauffeurConfirmedAt = none)
    (hfp : actor = t.parent → t.parentConfirmedAt = none) :
    ∃ t' just, confirm_trip_completion t actor now = .ok (t', just) ∧
      (actor = t.chauffeur → t'.chauffeurConfirmedAt = some now) ∧
      (actor = t.parent → t'.parentConfirmedAt = some now) ∧
      (t'.status = .completed ↔ t'.chauffeur_has_confirmed ∧ t'.parent_has_confirmed) ∧
      (t'.status = .completed → t'.completedAt = some now ∧ just = true) ∧
      (t'.status = .in_progress →
        confirm_trip_completion t' actor now' = .error .alreadyConfirmed) ∧
      (t'.status = .completed →
        confirm_trip_completion t' actor now' = .error .notInProgress) := by
  have hne' : t.parent ≠ t.chauffeur := Ne.symm hne
  rcases hpar with hA | hA <;> subst hA
  · have hcc : t.chauffeurConfirmedAt = none := hfc rfl
    cases hpc : t.parentConfirmedAt with
    | none =>
      refine ⟨{ t with chauffeurConfirmedAt := some now }, false, ?_,
        fun _ => rfl, fun h => absurd h hne, ?_, ?_, ?_, ?_⟩
      · simp [confirm_trip_completion, finalize_trip_completion,
              Trip.chauffeur_has_confirmed, Trip.parent_has_confirmed, hip, hcc, hpc]
      · simp [Trip.chauffeur_has_confirmed, Trip.parent_has_confirmed, hip, hpc]
      · intro h; simp [hip] at h
      · intro _
        simp [confirm_trip_completion, Trip.chauffeur_has_confirmed, hip]
      · intro h; simp [hip] at h
    | some x =>
      refine ⟨{ t with chauffeurConfirmedAt := some now, status := .completed,
                       completedAt := some now }, true, ?_,
        fun _ => rfl, fun h => absurd h hne, ?_, fun _ => ⟨rfl, rfl⟩, ?_, ?_⟩
      · simp [confirm_trip_completion, finalize_trip_completion, Trip.mark_completed,
              Trip.chauffeur_has_confirmed, Trip.parent_has_confirmed, hip, hcc, hpc]
      · simp [Trip.chauffeur_has_confirmed, Trip.parent_has_confirmed, hpc]
      · intro h; simp at h
      · intro _
        simp [confirm_trip_completion]
  · have hcp : t.parentConfirmedAt = none := hfp rfl
    cases hcc : t.chauffeurConfirmedAt with
    | none =>
      refine ⟨{ t with parentConfirmedAt := some now }, false, ?_,
        fun h => absurd h hne', fun _ => rfl, ?_, ?_, ?_, ?_⟩
      · simp [confirm_trip_completion, finalize_trip_completion, hne',
              Trip.chauffeur_has_confirmed, Trip.parent_has_confirmed, hip, hcp, hcc]
      · simp [Trip.chauffeur_has_confirmed, Trip.parent_has_confirmed, hip, hcc]
      · intro h; simp [hip] at h
      · intro _
        simp [confirm_trip_completion, Trip.parent_has_confirmed, hip, hne']
      · intro h; simp [hip] at h
    | some x =>
      refine ⟨{ t with parentConfirmedAt := some now, status := .completed,
                       completedAt := some now }, true, ?_,
        fun h => absurd h hne', fun _ => rfl, ?_, fun _ => ⟨rfl, rfl⟩, ?_, ?_⟩
      · simp [confirm_trip_completion, finalize_trip_completion, Trip.mark_completed, hne',
              Trip.chauffeur_has_confirmed, Trip.parent_has_confirmed, hip, hcp, hcc]
      · simp [Trip.chauffeur_has_confirmed, Trip.parent_has_confirmed, hcc]
      · intro h; simp at h
      · intro _
        simp [confirm_trip_completion, hne']

/-- Witness for C5: the chauffeur (user 5) is the first to confirm on the
fresh in-progress trip `tripRun`. -/
theorem confirm_dual_completion_wit :
    ∃ t' just, confirm_trip_completion tripRun 5 7 = .ok (t', just) ∧
      ((5 : Nat) = tripRun.chauffeur → t'.chauffeurConfirmedAt = some 7) ∧
      ((5 : Nat) = tripRun.parent → t'.parentConfirmedAt = some 7) ∧
      (t'.status = .completed ↔ t'.chauffeur_has_confirmed ∧ t'.parent_has_confirmed) ∧
      (t'.status = .completed → t'.completedAt = some 7 ∧ just = true) ∧
      (t'.status = .in_progress →
        confirm_trip_completion t' 5 8 = .error .alreadyConfirmed) ∧
      (t'.status = .completed →
        confirm_trip_completion t' 5 8 = .error .notInProgress) :=
  confirm_dual_completion tripRun 5 7 8 (by decide) (by decide) (Or.inl rfl)
    (fun _ => rfl) (fun h => absurd h (by decide))

/-- The trip obtained from `tripHalf` after the chauffeur's confirmation at
time 7 finalizes it. -/
def tripDone : Trip :=
  { tripHalf with chauffeurConfirmedAt := some 7, status := .completed,
                  completedAt := some 7 }

/-- Counterexample for C5 as stated: on `tripHalf` (in progress, parent
already confirmed) the chauffeur's first call completes the trip, and the
chauffeur's second call fails with the not-in-progress error, not with
`alreadyConfirmed`. -/
theorem confirm_second_error_cex :
    confirm_trip_completion tripHalf 5 7 = .ok (tripDone, true) ∧
    confirm_trip_completion tripDone 5 8 = .error .notInProgress ∧
    confirm_trip_completion tripDone 5 8 ≠ .error .alreadyConfirmed := by
  refine ⟨by decide, by decide, by decide⟩

/-- A successful confirmation either finalizes the trip at `now` or leaves
status and `completed_at` untouched. -/
lemma confirm_status_cases (t : Trip) (a now : Nat) (t' : Trip) (b : Bool)
    (h : confirm_trip_completion t a now = .ok (t', b)) :
    (t'.status = .completed ∧ t'.completedAt = some now) ∨
    (t'.status = t.status ∧ t'.completedAt = t.completedAt) := by
  unfold confirm_trip_completion at h
  split_ifs at h with h1 h2 h3 h4 h5
  all_goals
    first
      | exact Except.noConfusion h
      | (simp only [finalize_trip_completion, Trip.mark_completed, Except.ok.injEq] at h
         split_ifs at h with hf <;> simp only [Prod.mk.injEq] at h <;>
           obtain ⟨rfl, -⟩ := h <;>
           first
             | exact Or.inl ⟨rfl, rfl⟩
             | exact Or.inr ⟨rfl, rfl⟩)

/-- One lifecycle operation preserves the amended `completed_at` invariant. -/
lemma applyOp_completedAtInv (t : Trip) (op : TripOp) (h : completedAtInv t) :
    completedAtInv (TripOp.apply t op) := by
  cases op with
  | startOp now =>
    simp only [TripOp.apply]
    split_ifs with hs
    · have hnone : t.completedAt = none := by
        rcases hs with h1 | h1 <;> simp [completedAtInv, h1] at h <;> exact h
      simp [completedAtInv, Trip.mark_in_progress, hnone]
    · exact h
  | confirmOp a now =>
    simp only [TripOp.apply]
    cases hres : confirm_trip_completion t a now with
    | error e => exact h
    | ok r =>
      obtain ⟨t', b⟩ := r
      rcases confirm_status_cases t a now t' b hres with ⟨h1, h2⟩ | ⟨h1, h2⟩
      · simp [completedAtInv, h1, h2]
      · simpa [completedAtInv, h1, h2] using h
  | archiveOp u =>
    cases u with
    | none =>
      simp only [TripOp.apply, Trip.archive]
      split_ifs with hc
      · simp only [completedAtInv, hc] at h
        simp [completedAtInv, h]
      · exact h
    | some u =>
      simp only [TripOp.apply, Trip.archive]
      split_ifs <;> simpa [completedAtInv] using h

/-- Claim C6 (amended): along every sequence of lifecycle operations (guarded
start, dual confirmation, per-party or global archive), `completed_at` is set
iff the status is `completed` or `archived` — the global operator archive of
a completed trip keeps `completed_at` while moving the status to `archived`,
so the plain "iff completed" form fails only through that operation. -/
theorem trip_completedAt_invariant (t : Trip) (ops : List TripOp)
    (h : completedAtInv t) : completedAtInv (runOps t ops) := by
  induction ops generalizing t with
  | nil => exact h
  | cons op rest ih => exact ih _ (applyOp_completedAtInv t op h)

/-- Witness for C6: the full scenario start, both confirmations, then a
per-party and the global archive, from the fresh trip `tripSched`. -/
theorem trip_completedAt_invariant_wit :
    completedAtInv (runOps tripSched
      [.startOp 1, .confirmOp 5 2, .confirmOp 1 3, .archiveOp (some 1), .archiveOp none]) :=
  trip_completedAt_invariant tripSched
    [.startOp 1, .confirmOp 5 2, .confirmOp 1 3, .archiveOp (some 1), .archiveOp none]
    (by unfold completedAtInv; decide)

/-- The trip reached by start, dual confirmation, then the global archive. -/
def tripArchCex : Trip :=
  runOps tripSched [.startOp 1, .confirmOp 5 2, .confirmOp 1 3, .archiveOp none]

/-- Counterexample for C6 as stated: after the global archive of the
completed trip, `completed_at` is still set although the status is
`archived`, not `completed`. -/
theorem trip_completedAt_iff_cex :
    tripArchCex.completedAt = some 3 ∧ tripArchCex.status = .archived ∧
    tripArchCex.status ≠ .completed := by
  refine ⟨by decide, by decide, by decide⟩

lemma map_if_id {α : Type} (p : α → Bool) (f : α → α) (l : List α)
    (h : ∀ a ∈ l, p a = false) :
    (l.map fun a => if p a then f a else a) = l := by
  induction l with
  | nil => rfl
  | cons x xs ih =>
    rw [List.map_cons, ih fun a ha => h a (List.mem_cons_of_mem x ha)]
    simp [h x (List.mem_cons_self x xs)]

lemma filter_eq_nil_of {α : Type} (p : α → Bool) (l : List α)
    (h : ∀ a ∈ l, p a = false) : l.filter p = [] := by
  induction l with
  | nil => rfl
  | cons x xs ih =>
    rw [List.filter_cons, h x (List.mem_cons_self x xs)]
    simpa using ih fun a ha => h a (List.mem_cons_of_mem x ha)

/-- The combined per-subscription effect of one non-dry sweep. -/
def sweepFun (today : Int) (s : Subscription) : Subscription :=
  let s1 := if overdueSel today s then s.set_overdue else s
  if suspendSel (today - 5) s1 then s1.setSuspended else s1

lemma sweep_subs_eq (st : SweepState) (today : Int) :
    (handle_overdue_subscriptions st today false).1.subs =
      st.subs.map (sweepFun today) := by
  simp only [handle_overdue_subscriptions, Bool.false_eq_true, if_false,
    sweepStep2, sweepStep1, List.map_map]
  rfl

/-- After a non-dry sweep, no subscription matches either selection again. -/
lemma sweepFun_stable (today : Int) (s : Subscription) :
    overdueSel today (sweepFun today s) = false ∧
    suspendSel (today - 5) (sweepFun today s) = false := by
  rcases s with ⟨i, p, c, d⟩
  cases c <;>
    simp only [sweepFun, overdueSel, suspendSel, Subscription.set_overdue,
      Subscription.setSuspended] <;>
    split_ifs <;> simp_all

/-- Claim C8: with no intervening payments, the second of two consecutive
sweeps on the same day selects nothing — it reports zero overdue and zero
suspended, and leaves the state (statuses, accounts, notification log)
exactly as the first sweep left it: nothing is suspended or notified twice. -/
theorem sweep_second_run_empty (st : SweepState) (today : Int) :
    handle_overdue_subscriptions (handle_overdue_subscriptions st today false).1 today false =
      ((handle_overdue_subscriptions st today false).1,
        { overdue := 0, suspended := 0, overdueIds := [], suspendedIds := [] }) := by
  set st1 := (handle_overdue_subscriptions st today false).1 with hst1
  have hsubs : st1.subs = st.subs.map (sweepFun today) := sweep_subs_eq st today
  have hov : ∀ a ∈ st1.subs, overdueSel today a = false := by
    rw [hsubs]
    intro a ha
    rcases List.mem_map.mp ha with ⟨s, -, rfl⟩
    exact (sweepFun_stable today s).1
  have hsus : ∀ a ∈ st1.subs, suspendSel (today - 5) a = false := by
    rw [hsubs]
    intro a ha
    rcases List.mem_map.mp ha with ⟨s, -, rfl⟩
    exact (sweepFun_stable today s).2
  have hfil1 : st1.subs.filter (overdueSel today) = [] := filter_eq_nil_of _ _ hov
  have hfil2 : st1.subs.filter (suspendSel (today - 5)) = [] := filter_eq_nil_of _ _ hsus
  have hstep1 : sweepStep1 today st1 = st1 := by
    unfold sweepStep1
    rw [map_if_id _ _ _ hov, hfil1]
    simp
  have hstep2 : sweepStep2 (today - 5) st1 = st1 := by
    unfold sweepStep2
    rw [map_if_id _ _ _ hsus, hfil2]
    simp
  simp only [handle_overdue_subscriptions, Bool.false_eq_true, if_false, hstep1,
    hfil1, hfil2, hstep2, List.map_nil, List.length_nil]

/-- Marking a subscription overdue does not change whether the suspension
selection matches it, provided no active subscription is already past the
grace period. -/
lemma step1_suspendSel (today : Int) (s : Subscription)
    (h : s.status = .active → ¬(s.nextDue < today - 5)) :
    suspendSel (today - 5) (if overdueSel today s then s.set_overdue else s) =
      suspendSel (today - 5) s := by
  rcases s with ⟨i, p, c, d⟩
  cases c <;>
    simp only [overdueSel, suspendSel, Subscription.set_overdue] <;>
    split_ifs <;> simp_all

/-- The suspended-id report of a dry run equals the one of a real run when no
active subscription is already past the grace period. -/
lemma dry_real_suspend_ids (today : Int) (l : List Subscription)
    (h : ∀ s ∈ l, s.status = .active → ¬(s.nextDue < today - 5)) :
    ((l.map fun s => if overdueSel today s then s.set_overdue else s).filter
        (suspendSel (today - 5))).map (·.id) =
      (l.filter (suspendSel (today - 5))).map (·.id) := by
  induction l with
  | nil => rfl
  | cons x xs ih =>
    have hx := step1_suspendSel today x (h x (List.mem_cons_self x xs))
    have ihx := ih fun s hs => h s (List.mem_cons_of_mem x hs)
    rw [List.map_cons, List.filter_cons, List.filter_cons, hx]
    by_cases hs : suspendSel (today - 5) x = true
    · rw [if_pos hs, if_pos hs, List.map_cons, List.map_cons, ihx]
      have hid : (if overdueSel today x then x.set_overdue else x).id = x.id := by
        split_ifs <;> rfl
      rw [hid]
    · rw [if_neg hs, if_neg hs]
      exact ihx

/-- Claim C9 (amended): a dry-run sweep leaves every subscription, account
and the notification log unchanged and reports the same overdue ids as a
real sweep; under the hypothesis that no still-`active` subscription is
already past the 5-day grace period, its suspended counts/ids also agree
with the real run.  (Without that hypothesis the real run suspends more: it
re-reads the suspension queryset after marking subscriptions overdue.) -/
theorem sweep_dry_run_audit (st : SweepState) (today : Int)
    (h : ∀ s ∈ st.subs, s.status = .active → ¬(s.nextDue < today - 5)) :
    (handle_overdue_subscriptions st today true).1 = st ∧
    (handle_overdue_subscriptions st today true).2 =
      (handle_overdue_subscriptions st today false).2 := by
  refine ⟨rfl, ?_⟩
  have hids := dry_real_suspend_ids today st.subs h
  simp only [handle_overdue_subscriptions, Bool.false_eq_true, if_false, if_true,
    sweepStep1, SweepResult.mk.injEq]
  rw [← hids]
  simp

/-- Witness for C9: one freshly overdue active subscription (id 1) and one
overdue subscription past grace (id 2); dry and real runs report the same
ids. -/
theorem sweep_dry_run_audit_wit :
    (handle_overdue_subscriptions stW 0 true).1 = stW ∧
    (handle_overdue_subscriptions stW 0 true).2 =
      (handle_overdue_subscriptions stW 0 false).2 :=
  sweep_dry_run_audit stW 0 (by decide)

/-- Counterexample for C9 as stated: on `stCex` (one active subscription six
days past due) the dry run reports no suspension while the real run suspends
subscription 1, so the two result records differ. -/
theorem sweep_dry_run_cex :
    (handle_overdue_subscriptions stCex 0 true).2 ≠
      (handle_overdue_subscriptions stCex 0 false).2 := by
  decide

/-- Claim C4 (amended): for nonnegative distance and positive speed,
`get_estimated_arrival_time` is `max 2` of the *truncation* of
`distance / speed * 60` (Python's `int()`, i.e. the floor on nonnegative
values) — not of its ceiling; it is always at least 2 and monotonically
non-decreasing in the distance for a fixed speed. -/
theorem eta_trunc_min2_monotone (d d' v : ℚ) (hd : 0 ≤ d) (hdd : d ≤ d')
    (hv : 0 < v) :
    get_estimated_arrival_time d v = max 2 (Int.floor (d / v * 60)) ∧
    2 ≤ get_estimated_arrival_time d v ∧
    get_estimated_arrival_time d v ≤ get_estimated_arrival_time d' v := by
  have hq : (0 : ℚ) ≤ d / v * 60 := by
    exact mul_nonneg (div_nonneg hd hv.le) (by norm_num)
  have hq' : (0 : ℚ) ≤ d' / v * 60 := by
    exact mul_nonneg (div_nonneg (hd.trans hdd) hv.le) (by norm_num)
  have h1 : pyTrunc (d / v * 60) = Int.floor (d / v * 60) := by
    rw [pyTrunc, if_neg (not_lt.mpr hq)]
  have h1' : pyTrunc (d' / v * 60) = Int.floor (d' / v * 60) := by
    rw [pyTrunc, if_neg (not_lt.mpr hq')]
  refine ⟨by rw [get_estimated_arrival_time, h1], le_max_left _ _, ?_⟩
  rw [get_estimated_arrival_time, get_estimated_arrival_time, h1, h1']
  exact max_le_max le_rfl (Int.floor_le_floor (by gcongr))

/-- Witness for C4: distances 1 km and 2 km at 30 km/h. -/
theorem eta_trunc_min2_monotone_wit :
    get_estimated_arrival_time 1 30 = max 2 (Int.floor ((1 : ℚ) / 30 * 60)) ∧
    2 ≤ get_estimated_arrival_time 1 30 ∧
    get_estimated_arrival_time 1 30 ≤ get_estimated_arrival_time 2 30 :=
  eta_trunc_min2_monotone 1 2 30 (by norm_num) (by norm_num) (by norm_num)

/-- Counterexample for C4 as stated: at distance 1.25 km and 30 km/h the
travel time is 2.5 minutes; the source truncates to 2 while the spec's
ceiling formula gives 3. -/
theorem eta_ceil_cex :
    get_estimated_arrival_time (5 / 4) 30 = 2 ∧ etaMinutesSpec (5 / 4) 30 = 3 ∧
    get_estimated_arrival_time (5 / 4) 30 ≠ etaMinutesSpec (5 / 4) 30 := by
  have hfl : Int.floor ((5 : ℚ) / 4 / 30 * 60) = 2 := by norm_num
  have hcl : Int.ceil ((5 : ℚ) / 4 / 30 * 60) = 3 := by
    rw [Int.ceil_eq_iff]
    constructor <;> norm_num
  have h1 : get_estimated_arrival_time (5 / 4) 30 = 2 := by
    rw [get_estimated_arrival_time, pyTrunc, if_neg (by norm_num), hfl]
    decide
  have h2 : etaMinutesSpec (5 / 4) 30 = 3 := by
    rw [etaMinutesSpec, hcl]
    decide
  refine ⟨h1, h2, by rw [h1, h2]; decide⟩

end MobilityGab
